import Mathlib

/-!
Shallow embedding of `src/storage.rs` of the `sched` repository.

The storage engine persists two entity kinds in a document store:
immutable audit Logs and mutable Objects.  Identifiers are issued by two
counter documents (`logs_id`, `objs_id`), both seeded to `1` by
`Storage::new` and advanced with an atomic `find_one_and_update` +
`$inc` that returns the pre-image (so the first issued id is `1`).

Embedding conventions:
- BSON documents that the code stores are modelled by association lists
  (`BDoc`), with values restricted to the two variants the code ever
  writes (`Int32`, `String`).
- `find_one` is `List.lookup` (first match); `find_one_and_update` is
  `findOneAndUpdate` below: it returns the pre-image of the first
  matching document and a collection in which only that document was
  updated, mirroring the per-document atomic primitive of the store.
- the two counter documents are the `logsId`/`objsId` fields of
  `Storage`; the wall clock `Utc::now()` is a monotone `clock` field.
- `key.contains('.')` is rendered as `key.data.contains '.'` (the
  same predicate, stated on the character list so that the kernel can
  evaluate it on literals).
- fallible Rust `Result` values become `Outcome`; a `.unwrap()` on a
  value that is not there, and an `unreachable!()`, become
  `Outcome.panic` (process-terminating, distinct from every typed
  `Error` the code can return).
- `handlers.handle(&log)` invokes externally registered script
  callables (the event module; its dispatch does not touch the store in
  `storage.rs`), so it has no effect on the `Storage` state here; the
  read-back `get_log` that produces the dispatched value is kept.
-/

/-- Values that `storage.rs` ever writes into a BSON document: `Int32`
identifiers and strings. -/
inductive BVal where
  | vInt (n : Nat)
  | vStr (s : String)
deriving DecidableEq, Repr

/-- A BSON (sub)document: an association list from keys to values. -/
abbrev BDoc := List (String × BVal)

-- `doc.get_str(key)` style lookup: first binding of the key.
def BDoc.get (d : BDoc) (k : String) : Option BVal :=
  List.lookup k d

-- `$set` of one key inside a subdocument (replace first binding, or append).
def BDoc.set (d : BDoc) (k : String) (v : BVal) : BDoc :=
  match d with
  | [] => [(k, v)]
  | (k0, v0) :: rest => if k0 = k then (k0, v) :: rest else (k0, v0) :: BDoc.set rest k v

-- `$unset` of one key inside a subdocument.
def BDoc.unset (d : BDoc) (k : String) : BDoc :=
  d.filter (fun e => e.1 != k)

/-- A persisted Log document: `{_id, type, time, attrs?}` — the attrs
field is omitted entirely when the attribute map is empty. -/
structure LogDoc where
  typ : String
  time : Nat
  attrs : Option BDoc
deriving DecidableEq, Repr

/-- A persisted Object document.  `desc` and `attrs` are fields that are
absent until first written (`Option`); `deps`/`subs`/`refs` are arrays
maintained with `$addToSet`/`$pull` and absent fields deserialize as
empty via `#[serde(default)]`, so a plain list with no duplicates by
construction models them. -/
structure ObjDoc where
  name : String
  typ : String
  desc : Option String
  deps : List Nat
  subs : List Nat
  refs : List Nat
  attrs : Option BDoc
deriving DecidableEq, Repr

/-- The error enum of `storage.rs`.  Every variant is a recoverable
typed failure returned to the caller. -/
inductive Error where
  | Regex (pat : String)
  | InvalidKey (key : String)
  | InvalidLogID (id : Nat)
  | InvalidObjID (id : Nat)
deriving DecidableEq, Repr

/-- Result of running one storage operation: a typed `Result` value
(`ok`/`err`), or a process-terminating panic (`.unwrap()` on a missing
value / `unreachable!()`), which is never a value of the `Error` enum. -/
inductive Outcome (α : Type) where
  | ok (a : α)
  | err (e : Error)
  | panic (msg : String)
deriving DecidableEq, Repr

/-- The deserialized `Log` struct handed to `get_log` callers and to
event handlers: `Int32` attribute values are rendered as strings. -/
structure Log where
  typ : String
  time : Nat
  attrs : List (String × String)
deriving DecidableEq, Repr

/-- The deserialized `Object` struct returned by `get_obj`. -/
structure Object where
  name : String
  typ : String
  desc : Option String
  deps : List Nat
  subs : List Nat
  refs : List Nat
  attrs : List (String × String)
deriving DecidableEq, Repr

/-- The `Storage` state: the two id counter documents (each holding the
next id to issue), the `logs` and `objs` collections keyed by `_id`,
and the wall clock. -/
structure Storage where
  logsId : Nat
  objsId : Nat
  logs : List (Nat × LogDoc)
  objs : List (Nat × ObjDoc)
  clock : Nat
deriving DecidableEq, Repr

/-- State right after `Storage::new()`: both counter documents seeded
to `1`, empty collections. -/
def Storage.init : Storage :=
  { logsId := 1, objsId := 1, logs := [], objs := [], clock := 0 }

/-- `find_one_and_update(filter, update)` with default options: returns
the document before the update (pre-image) of the FIRST document
matching the filter, together with the collection where only that
document has been updated; `(none, coll)` when nothing matches. -/
def findOneAndUpdate (coll : List (Nat × α)) (p : Nat × α → Bool) (f : α → α) :
    Option α × List (Nat × α) :=
  match coll with
  | [] => (none, [])
  | e :: rest =>
    if p e then (some e.2, (e.1, f e.2) :: rest)
    else
      let (r, rest2) := findOneAndUpdate rest p f
      (r, e :: rest2)

-- `$addToSet`: append unless already a member.
def addToSet (l : List Nat) (x : Nat) : List Nat :=
  if x ∈ l then l else l ++ [x]

-- `$pull`: remove every occurrence.
def pull (l : List Nat) (x : Nat) : List Nat :=
  l.filter (fun y => y != x)

/-- The value-to-string conversion in `get_log` (`Int32` and `String`
are the only variants; the source marks the rest `unreachable!()`, and
`BVal` has no other constructor). -/
def bvalToString : BVal → String
  | BVal.vInt n => toString n
  | BVal.vStr s => s

/-- `Storage::get_log`: `find_one` by `_id`, `InvalidLogID` when
absent; attribute values are rendered to strings.  A pure lookup: it
takes no updated state back to the caller. -/
def Storage.get_log (s : Storage) (id : Nat) : Outcome Log :=
  match List.lookup id s.logs with
  | none => Outcome.err (Error.InvalidLogID id)
  | some d =>
    Outcome.ok
      { typ := d.typ, time := d.time,
        attrs := (d.attrs.getD []).map (fun e => (e.1, bvalToString e.2)) }

/-- Deserializing the attribute subdocument of an Object into
`HashMap<String, String>`: every value must be a string, otherwise
deserialization fails (and `get_obj` would panic on its `.unwrap()`). -/
def docAttrsToStrs : BDoc → Option (List (String × String))
  | [] => some []
  | (k, BVal.vStr v) :: rest => (docAttrsToStrs rest).map (fun l => (k, v) :: l)
  | (_, BVal.vInt _) :: _ => none

/-- `Storage::get_obj`: `find_one` by `_id`, `InvalidObjID` when
absent, then serde deserialization (absent optional fields default). -/
def Storage.get_obj (s : Storage) (id : Nat) : Outcome Object :=
  match List.lookup id s.objs with
  | none => Outcome.err (Error.InvalidObjID id)
  | some d =>
    match docAttrsToStrs (d.attrs.getD []) with
    | none => Outcome.panic "from_bson unwrap"
    | some strAttrs =>
      Outcome.ok
        { name := d.name, typ := d.typ, desc := d.desc,
          deps := d.deps, subs := d.subs, refs := d.refs, attrs := strAttrs }

/-- `Storage::create_log`: atomically fetch-and-increment the
`logs_id` counter (the returned id is the pre-image), insert exactly
one Log document — omitting the `attrs` field when the map is empty —
then read the Log back and dispatch it to the externally registered
handlers (no store effect in `storage.rs`). -/
def Storage.create_log (s : Storage) (typ : String) (attrs : BDoc) : Outcome Nat × Storage :=
  let id := s.logsId
  let s1 : Storage := { s with logsId := s.logsId + 1 }
  let logdoc : LogDoc :=
    if attrs.length > 0 then { typ := typ, time := s.clock, attrs := some attrs }
    else { typ := typ, time := s.clock, attrs := none }
  let s2 : Storage := { s1 with logs := s1.logs ++ [(id, logdoc)], clock := s1.clock + 1 }
  match s2.get_log id with
  | Outcome.ok _log => (Outcome.ok id, s2)
  | Outcome.err e => (Outcome.err e, s2)
  | Outcome.panic m => (Outcome.panic m, s2)

/-- `Storage::log_set_attr`: reject dotted keys with `InvalidKey`;
otherwise conditionally `$set attrs.<key>` on the Log only when
`attrs.<key>` does not yet exist (first-write-wins; no match is a
silent no-op), then always create one audit Log of type `log.set_attr`
recording `{id, attr: "attrs.<key>"}`. -/
def Storage.log_set_attr (s : Storage) (id : Nat) (key val : String) : Outcome Unit × Storage :=
  if key.data.contains '.' then (Outcome.err (Error.InvalidKey key), s)
  else
    let (_, logs2) := findOneAndUpdate s.logs
      (fun e => e.1 == id && ((e.2.attrs.getD []).get key).isNone)
      (fun d => { d with attrs := some ((d.attrs.getD []).set key (BVal.vStr val)) })
    let s1 := { s with logs := logs2 }
    match s1.create_log "log.set_attr"
        [("id", BVal.vInt id), ("attr", BVal.vStr ("attrs." ++ key))] with
    | (Outcome.ok _, s2) => (Outcome.ok (), s2)
    | (Outcome.err e, s2) => (Outcome.err e, s2)
    | (Outcome.panic m, s2) => (Outcome.panic m, s2)

/-- `Storage::create_obj`: atomically fetch-and-increment the
`objs_id` counter, insert the minimal Object document
`{_id, name, type}`, then audit with a Log `obj.create {id}`. -/
def Storage.create_obj (s : Storage) (name typ : String) : Outcome Nat × Storage :=
  let id := s.objsId
  let s1 : Storage := { s with objsId := s.objsId + 1 }
  let s2 : Storage :=
    { s1 with objs := s1.objs ++
        [(id, { name := name, typ := typ, desc := none,
                deps := [], subs := [], refs := [], attrs := none })] }
  match s2.create_log "obj.create" [("id", BVal.vInt id)] with
  | (Outcome.ok _, s3) => (Outcome.ok id, s3)
  | (Outcome.err e, s3) => (Outcome.err e, s3)
  | (Outcome.panic m, s3) => (Outcome.panic m, s3)

/-- `Storage::obj_set_desc`: `$set desc` on the Object, then
`.unwrap()` the pre-image — a PANIC when no Object matched the id —
and audit `obj.set_desc` with `old` only when a description existed. -/
def Storage.obj_set_desc (s : Storage) (id : Nat) (desc : String) : Outcome Unit × Storage :=
  let (old, objs2) := findOneAndUpdate s.objs (fun e => e.1 == id)
    (fun d => { d with desc := some desc })
  match old with
  | none => (Outcome.panic "unwrap on None", s)
  | some od =>
    let s1 := { s with objs := objs2 }
    let attrs : BDoc :=
      match od.desc with
      | some o => [("id", BVal.vInt id), ("old", BVal.vStr o), ("new", BVal.vStr desc)]
      | none => [("id", BVal.vInt id), ("new", BVal.vStr desc)]
    match s1.create_log "obj.set_desc" attrs with
    | (Outcome.ok _, s2) => (Outcome.ok (), s2)
    | (Outcome.err e, s2) => (Outcome.err e, s2)
    | (Outcome.panic m, s2) => (Outcome.panic m, s2)

/-- `Storage::obj_add_dep`: `$addToSet deps` (pre-image discarded, so a
missing Object is NOT an error), then always audit
`obj.add_dep {id, dep}`. -/
def Storage.obj_add_dep (s : Storage) (id dep : Nat) : Outcome Unit × Storage :=
  let (_, objs2) := findOneAndUpdate s.objs (fun e => e.1 == id)
    (fun d => { d with deps := addToSet d.deps dep })
  let s1 := { s with objs := objs2 }
  match s1.create_log "obj.add_dep" [("id", BVal.vInt id), ("dep", BVal.vInt dep)] with
  | (Outcome.ok _, s2) => (Outcome.ok (), s2)
  | (Outcome.err e, s2) => (Outcome.err e, s2)
  | (Outcome.panic m, s2) => (Outcome.panic m, s2)

/-- `Storage::obj_add_sub`: like `obj_add_dep` on the `subs` array;
the audit attrs are `{sub, id}` in this key order in the source. -/
def Storage.obj_add_sub (s : Storage) (id sub : Nat) : Outcome Unit × Storage :=
  let (_, objs2) := findOneAndUpdate s.objs (fun e => e.1 == id)
    (fun d => { d with subs := addToSet d.subs sub })
  let s1 := { s with objs := objs2 }
  match s1.create_log "obj.add_sub" [("sub", BVal.vInt sub), ("id", BVal.vInt id)] with
  | (Outcome.ok _, s2) => (Outcome.ok (), s2)
  | (Outcome.err e, s2) => (Outcome.err e, s2)
  | (Outcome.panic m, s2) => (Outcome.panic m, s2)

/-- `Storage::obj_add_ref`: like `obj_add_dep` on the `refs` array. -/
def Storage.obj_add_ref (s : Storage) (id rf : Nat) : Outcome Unit × Storage :=
  let (_, objs2) := findOneAndUpdate s.objs (fun e => e.1 == id)
    (fun d => { d with refs := addToSet d.refs rf })
  let s1 := { s with objs := objs2 }
  match s1.create_log "obj.add_ref" [("ref", BVal.vInt rf), ("id", BVal.vInt id)] with
  | (Outcome.ok _, s2) => (Outcome.ok (), s2)
  | (Outcome.err e, s2) => (Outcome.err e, s2)
  | (Outcome.panic m, s2) => (Outcome.panic m, s2)

/-- `Storage::obj_del_dep`: `$pull deps` (missing Object is not an
error), then always audit `obj.del_dep {dep, id}`. -/
def Storage.obj_del_dep (s : Storage) (id dep : Nat) : Outcome Unit × Storage :=
  let (_, objs2) := findOneAndUpdate s.objs (fun e => e.1 == id)
    (fun d => { d with deps := pull d.deps dep })
  let s1 := { s with objs := objs2 }
  match s1.create_log "obj.del_dep" [("dep", BVal.vInt dep), ("id", BVal.vInt id)] with
  | (Outcome.ok _, s2) => (Outcome.ok (), s2)
  | (Outcome.err e, s2) => (Outcome.err e, s2)
  | (Outcome.panic m, s2) => (Outcome.panic m, s2)

/-- `Storage::obj_del_sub`: `$pull subs`, audit `obj.del_sub {sub, id}`. -/
def Storage.obj_del_sub (s : Storage) (id sub : Nat) : Outcome Unit × Storage :=
  let (_, objs2) := findOneAndUpdate s.objs (fun e => e.1 == id)
    (fun d => { d with subs := pull d.subs sub })
  let s1 := { s with objs := objs2 }
  match s1.create_log "obj.del_sub" [("sub", BVal.vInt sub), ("id", BVal.vInt id)] with
  | (Outcome.ok _, s2) => (Outcome.ok (), s2)
  | (Outcome.err e, s2) => (Outcome.err e, s2)
  | (Outcome.panic m, s2) => (Outcome.panic m, s2)

/-- `Storage::obj_del_ref`: `$pull refs`, audit `obj.del_ref {ref, id}`. -/
def Storage.obj_del_ref (s : Storage) (id rf : Nat) : Outcome Unit × Storage :=
  let (_, objs2) := findOneAndUpdate s.objs (fun e => e.1 == id)
    (fun d => { d with refs := pull d.refs rf })
  let s1 := { s with objs := objs2 }
  match s1.create_log "obj.del_ref" [("ref", BVal.vInt rf), ("id", BVal.vInt id)] with
  | (Outcome.ok _, s2) => (Outcome.ok (), s2)
  | (Outcome.err e, s2) => (Outcome.err e, s2)
  | (Outcome.panic m, s2) => (Outcome.panic m, s2)

/-- `Storage::obj_set_attr`: reject dotted keys, `$set attrs.<key>`
unconditionally, `.unwrap()` the pre-image (PANIC for a missing
Object), then audit from the pre-image:
`old_obj.get_document("attrs").map(|d| d.get_str(key).unwrap())` —
note the INNER `.unwrap()`: when the pre-image has an `attrs`
subdocument that lacks the key, the `Err(NotPresent)` arm is never
reached and the call PANICS instead of auditing `{key, id, new}`. -/
def Storage.obj_set_attr (s : Storage) (id : Nat) (key val : String) : Outcome Unit × Storage :=
  if key.data.contains '.' then (Outcome.err (Error.InvalidKey key), s)
  else
    let (old, objs2) := findOneAndUpdate s.objs (fun e => e.1 == id)
      (fun d => { d with attrs := some ((d.attrs.getD []).set key (BVal.vStr val)) })
    match old with
    | none => (Outcome.panic "unwrap on None", s)
    | some od =>
      let s1 := { s with objs := objs2 }
      match od.attrs with
      | none =>
        match s1.create_log "obj.set_attr"
            [("key", BVal.vStr key), ("id", BVal.vInt id), ("new", BVal.vStr val)] with
        | (Outcome.ok _, s2) => (Outcome.ok (), s2)
        | (Outcome.err e, s2) => (Outcome.err e, s2)
        | (Outcome.panic m, s2) => (Outcome.panic m, s2)
      | some d0 =>
        match d0.get key with
        | some (BVal.vStr o) =>
          match s1.create_log "obj.set_attr"
              [("key", BVal.vStr key), ("id", BVal.vInt id),
               ("old", BVal.vStr o), ("new", BVal.vStr val)] with
          | (Outcome.ok _, s2) => (Outcome.ok (), s2)
          | (Outcome.err e, s2) => (Outcome.err e, s2)
          | (Outcome.panic m, s2) => (Outcome.panic m, s2)
        | some (BVal.vInt _) => (Outcome.panic "unwrap on UnexpectedType", s1)
        | none => (Outcome.panic "unwrap on NotPresent", s1)

/-- `Storage::obj_del_attr`: reject dotted keys, `$unset attrs.<key>`,
`.unwrap()` the pre-image (PANIC for a missing Object), then audit
`obj.del_attr {id, key, old}` ONLY when the key existed; when the
pre-image has no `attrs` field at all the wildcard arm skips the audit,
but when an `attrs` subdocument exists without the key the inner
`.unwrap()` PANICS (same slip as in `obj_set_attr`). -/
def Storage.obj_del_attr (s : Storage) (id : Nat) (key : String) : Outcome Unit × Storage :=
  if key.data.contains '.' then (Outcome.err (Error.InvalidKey key), s)
  else
    let (old, objs2) := findOneAndUpdate s.objs (fun e => e.1 == id)
      (fun d => { d with attrs := d.attrs.map (fun d0 => d0.unset key) })
    match old with
    | none => (Outcome.panic "unwrap on None", s)
    | some od =>
      let s1 := { s with objs := objs2 }
      match od.attrs with
      | none => (Outcome.ok (), s1)
      | some d0 =>
        match d0.get key with
        | some (BVal.vStr o) =>
          match s1.create_log "obj.del_attr"
              [("id", BVal.vInt id), ("key", BVal.vStr key), ("old", BVal.vStr o)] with
          | (Outcome.ok _, s2) => (Outcome.ok (), s2)
          | (Outcome.err e, s2) => (Outcome.err e, s2)
          | (Outcome.panic m, s2) => (Outcome.panic m, s2)
        | some (BVal.vInt _) => (Outcome.panic "unwrap on UnexpectedType", s1)
        | none => (Outcome.panic "unwrap on NotPresent", s1)


/-- One public creation call on the Storage facade, for reasoning about
arbitrary interleavings of `create_log` and `create_obj`. -/
inductive Op where
  | createLog (typ : String) (attrs : BDoc)
  | createObj (name typ : String)

def countLog : List Op → Nat
  | [] => 0
  | Op.createLog _ _ :: rest => countLog rest + 1
  | Op.createObj _ _ :: rest => countLog rest

def countObj : List Op → Nat
  | [] => 0
  | Op.createLog _ _ :: rest => countObj rest
  | Op.createObj _ _ :: rest => countObj rest + 1

/-- Run a sequence of creation calls, collecting the identifiers
returned by the `create_log` calls and the `create_obj` calls (in call
order) together with the final state. -/
def runOps (s : Storage) : List Op → List Nat × List Nat × Storage
  | [] => ([], [], s)
  | Op.createLog typ attrs :: rest =>
    match s.create_log typ attrs with
    | (Outcome.ok id, s1) =>
      (id :: (runOps s1 rest).1, (runOps s1 rest).2.1, (runOps s1 rest).2.2)
    | (Outcome.err _, s1) => runOps s1 rest
    | (Outcome.panic _, s1) => runOps s1 rest
  | Op.createObj name typ :: rest =>
    match s.create_obj name typ with
    | (Outcome.ok id, s1) =>
      ((runOps s1 rest).1, id :: (runOps s1 rest).2.1, (runOps s1 rest).2.2)
    | (Outcome.err _, s1) => runOps s1 rest
    | (Outcome.panic _, s1) => runOps s1 rest

/-!
Helper lemmas about the embedded store primitives.
-/

/-- A collection that just received an appended document resolves a
`find_one` on that key to some document (the read-back in `create_log`
can therefore never fail). -/
lemma lookup_append_single (l : List (Nat × α)) (k : Nat) (d : α) :
    ∃ d0, List.lookup k (l ++ [(k, d)]) = some d0 := by
  induction l with
  | nil => exact ⟨d, by simp [List.lookup]⟩
  | cons e rest ih =>
    by_cases h : k = e.1
    · exact ⟨e.2, by simp [List.lookup, h]⟩
    · obtain ⟨d0, hd0⟩ := ih
      have hbe : (k == e.1) = false := by simpa using h
      exact ⟨d0, by simp [List.lookup, hbe, hd0]⟩

/-- Unfolding equation of `create_log`: it returns the pre-increment
counter value and appends exactly one Log document, whose `attrs` field
is present exactly when the attribute map is nonempty. -/
lemma create_log_eq (s : Storage) (typ : String) (attrs : BDoc) :
    s.create_log typ attrs =
      (Outcome.ok s.logsId,
       { s with logsId := s.logsId + 1,
                logs := s.logs ++ [(s.logsId,
                  if attrs.length > 0 then { typ := typ, time := s.clock, attrs := some attrs }
                  else { typ := typ, time := s.clock, attrs := none })],
                clock := s.clock + 1 }) := by
  unfold Storage.create_log Storage.get_log
  obtain ⟨d0, hd0⟩ := lookup_append_single s.logs s.logsId
    (if attrs.length > 0 then ({ typ := typ, time := s.clock, attrs := some attrs } : LogDoc)
     else { typ := typ, time := s.clock, attrs := none })
  simp only []
  rw [hd0]

/-- Unfolding equation of `create_obj`: the Object counter and the Log
counter both advance, the minimal Object document and the `obj.create`
audit Log are appended. -/
lemma create_obj_eq (s : Storage) (name typ : String) :
    s.create_obj name typ =
      (Outcome.ok s.objsId,
       { s with objsId := s.objsId + 1,
                logsId := s.logsId + 1,
                objs := s.objs ++ [(s.objsId,
                  { name := name, typ := typ, desc := none,
                    deps := [], subs := [], refs := [], attrs := none })],
                logs := s.logs ++ [(s.logsId,
                  { typ := "obj.create", time := s.clock,
                    attrs := some [("id", BVal.vInt s.objsId)] })],
                clock := s.clock + 1 }) := by
  unfold Storage.create_obj
  simp [create_log_eq]

lemma fOAU_length (coll : List (Nat × α)) (p : Nat × α → Bool) (f : α → α) :
    (findOneAndUpdate coll p f).2.length = coll.length := by
  induction coll with
  | nil => simp [findOneAndUpdate]
  | cons e rest ih =>
    by_cases h : p e
    · simp [findOneAndUpdate, h]
    · simp [findOneAndUpdate, h, ih]

lemma fOAU_nomatch (coll : List (Nat × α)) (p : Nat × α → Bool) (f : α → α)
    (h : ∀ e ∈ coll, p e = false) :
    findOneAndUpdate coll p f = (none, coll) := by
  induction coll with
  | nil => simp [findOneAndUpdate]
  | cons e rest ih =>
    have he := h e (by simp)
    have hr : ∀ e2 ∈ rest, p e2 = false := fun e2 h2 => h e2 (by simp [h2])
    simp [findOneAndUpdate, he, ih hr]

lemma lookup_none_keys (coll : List (Nat × α)) (id : Nat)
    (h : List.lookup id coll = none) : ∀ e ∈ coll, (e.1 == id) = false := by
  induction coll with
  | nil => simp
  | cons e0 rest ih =>
    rw [List.lookup] at h
    cases hbe : (id == e0.1) with
    | true => rw [hbe] at h; simp at h
    | false =>
      rw [hbe] at h
      intro e he
      rcases List.mem_cons.1 he with h1 | h2
      · rw [h1]
        have hne : ¬ id = e0.1 := by simpa using hbe
        simp only [beq_eq_false_iff_ne]
        exact fun hh => hne hh.symm
      · exact ih h e h2

/-- A `find_one_and_update` whose filter is `_id = id` matches nothing,
and updates nothing, when no document has that id. -/
lemma fOAU_key_not_found (coll : List (Nat × α)) (id : Nat) (f : α → α)
    (h : List.lookup id coll = none) :
    findOneAndUpdate coll (fun e => e.1 == id) f = (none, coll) :=
  fOAU_nomatch coll _ f (lookup_none_keys coll id h)

lemma lookup_append_some (l l2 : List (Nat × α)) (k : Nat) (b : α)
    (h : List.lookup k l = some b) : List.lookup k (l ++ l2) = some b := by
  induction l with
  | nil => simp [List.lookup] at h
  | cons e rest ih =>
    cases hbe : (k == e.1) with
    | true =>
      rw [List.lookup, hbe] at h
      simp [List.lookup, hbe]
      simpa using h
    | false =>
      rw [List.lookup, hbe] at h
      simp [List.lookup, hbe]
      exact ih h

/-- When the first document carrying the looked-up id satisfies the
filter (and the filter implies that id), `find_one_and_update` returns
it as pre-image and the subsequent `find_one` sees the updated copy. -/
lemma fOAU_lookup_self (coll : List (Nat × α)) (L : Nat) (d : α) (p : Nat × α → Bool) (f : α → α)
    (hfind : List.lookup L coll = some d)
    (hp : p (L, d) = true)
    (hq : ∀ e, p e = true → e.1 = L) :
    (findOneAndUpdate coll p f).1 = some d ∧
    List.lookup L (findOneAndUpdate coll p f).2 = some (f d) := by
  induction coll with
  | nil => simp [List.lookup] at hfind
  | cons e rest ih =>
    cases hbe : (L == e.1) with
    | true =>
      have heq : L = e.1 := by simpa using hbe
      rw [List.lookup, hbe] at hfind
      have hd : e.2 = d := by simpa using hfind
      have hee : e = (L, d) := by
        cases e with
        | mk a b => simp at heq hd; simp [heq, hd]
      have hpe : p e = true := by rw [hee]; exact hp
      rw [hee] at hpe ⊢
      constructor
      · simp [findOneAndUpdate, hpe]
      · simp [findOneAndUpdate, hpe, List.lookup]
    | false =>
      have hne : ¬ L = e.1 := by simpa using hbe
      rw [List.lookup, hbe] at hfind
      have hpe : p e = false := by
        cases hpe2 : p e with
        | true => exact absurd (hq e hpe2) (fun hh => hne hh.symm)
        | false => rfl
      obtain ⟨ih1, ih2⟩ := ih hfind
      constructor
      · simpa [findOneAndUpdate, hpe] using ih1
      · simp only [findOneAndUpdate, hpe]
        simp only [List.lookup]
        rw [hbe]
        simpa using ih2

/-- When the first document carrying the looked-up id fails the filter,
that document survives a `find_one_and_update` unchanged (later
duplicates may be updated, but `find_one` still returns the first). -/
lemma fOAU_lookup_nomatch_first (coll : List (Nat × α)) (L : Nat) (d : α)
    (p : Nat × α → Bool) (f : α → α)
    (hfind : List.lookup L coll = some d)
    (hp : p (L, d) = false) :
    List.lookup L (findOneAndUpdate coll p f).2 = some d := by
  induction coll with
  | nil => simp [List.lookup] at hfind
  | cons e rest ih =>
    cases hbe : (L == e.1) with
    | true =>
      have heq : L = e.1 := by simpa using hbe
      rw [List.lookup, hbe] at hfind
      have hd : e.2 = d := by simpa using hfind
      have hee : e = (L, d) := by
        cases e with
        | mk a b => simp at heq hd; simp [heq, hd]
      rw [hee]
      simp [findOneAndUpdate, hp, List.lookup]
    | false =>
      rw [List.lookup, hbe] at hfind
      cases hpe : p e with
      | true =>
        simp only [findOneAndUpdate, hpe]
        simp only [List.lookup]
        rw [hbe]
        simpa using hfind
      | false =>
        simp only [findOneAndUpdate, hpe]
        simp only [List.lookup]
        rw [hbe]
        simpa using ih hfind

/-- An appended document that fails the filter commutes with
`find_one_and_update`. -/
lemma fOAU_append_last_nomatch (l1 : List (Nat × α)) (a : Nat) (b : α)
    (p : Nat × α → Bool) (f : α → α) (hp : p (a, b) = false) :
    findOneAndUpdate (l1 ++ [(a, b)]) p f =
      ((findOneAndUpdate l1 p f).1, (findOneAndUpdate l1 p f).2 ++ [(a, b)]) := by
  induction l1 with
  | nil => simp [findOneAndUpdate, hp]
  | cons e rest ih =>
    cases hpe : p e with
    | true => simp [findOneAndUpdate, hpe]
    | false => simp [findOneAndUpdate, hpe, ih]

lemma BDoc.get_set_self (dd : BDoc) (k : String) (v : BVal) :
    (BDoc.set dd k v).get k = some v := by
  induction dd with
  | nil => simp [BDoc.set, BDoc.get, List.lookup]
  | cons e rest ih =>
    by_cases h : e.1 = k
    · simp [BDoc.set, h, BDoc.get, List.lookup]
    · simp only [BDoc.set]
      rw [if_neg h]
      simp only [BDoc.get, List.lookup] at ih ⊢
      have hbe : (k == e.1) = false := by
        simp only [beq_eq_false_iff_ne]
        exact fun hh => h hh.symm
      rw [hbe]
      simpa using ih

/-- Setting a string value and then reading the attribute map back
through the string rendering of `get_log` yields that value. -/
lemma lookup_map_conv_set (dd : BDoc) (k v : String) :
    List.lookup k ((BDoc.set dd k (BVal.vStr v)).map (fun e => (e.1, bvalToString e.2))) =
      some v := by
  induction dd with
  | nil => simp [BDoc.set, List.lookup, bvalToString]
  | cons e rest ih =>
    by_cases h : e.1 = k
    · simp [BDoc.set, h, List.lookup, bvalToString]
    · simp only [BDoc.set]
      rw [if_neg h]
      have hbe : (k == e.1) = false := by
        simp only [beq_eq_false_iff_ne]
        exact fun hh => h hh.symm
      simp only [List.map, List.lookup, hbe]
      simpa using ih

lemma mem_addToSet_self (l : List Nat) (x : Nat) : x ∈ addToSet l x := by
  by_cases h : x ∈ l <;> simp [addToSet, h]

lemma not_mem_pull_self (l : List Nat) (x : Nat) : x ∉ pull l x := by
  simp [pull]

lemma addToSet_mem_noop (l : List Nat) (x : Nat) (h : x ∈ l) : addToSet l x = l := by
  simp [addToSet, h]

lemma pull_not_mem_noop (l : List Nat) (x : Nat) (h : x ∉ l) : pull l x = l := by
  apply List.filter_eq_self.mpr
  intro y hy
  simp only [bne_iff_ne, ne_eq, decide_eq_true_eq]
  exact fun he => h (he ▸ hy)

lemma get_obj_of_lookup (s : Storage) (A : Nat) (d : ObjDoc) (strs : List (String × String))
    (hfind : List.lookup A s.objs = some d)
    (hdeser : docAttrsToStrs (d.attrs.getD []) = some strs) :
    s.get_obj A = Outcome.ok {
      name := d.name, typ := d.typ, desc := d.desc,
      deps := d.deps, subs := d.subs, refs := d.refs, attrs := strs } := by
  simp [Storage.get_obj, hfind, hdeser]

lemma obj_add_dep_eq (s : Storage) (id dep : Nat) :
    s.obj_add_dep id dep = (Outcome.ok (), { s with
      logsId := s.logsId + 1, clock := s.clock + 1,
      objs := (findOneAndUpdate s.objs (fun e => e.1 == id)
        (fun d => { d with deps := addToSet d.deps dep })).2,
      logs := s.logs ++ [(s.logsId, {
        typ := "obj.add_dep", time := s.clock,
        attrs := some [("id", BVal.vInt id), ("dep", BVal.vInt dep)] })] }) := by
  unfold Storage.obj_add_dep
  simp [create_log_eq]

lemma obj_add_sub_eq (s : Storage) (id sub : Nat) :
    s.obj_add_sub id sub = (Outcome.ok (), { s with
      logsId := s.logsId + 1, clock := s.clock + 1,
      objs := (findOneAndUpdate s.objs (fun e => e.1 == id)
        (fun d => { d with subs := addToSet d.subs sub })).2,
      logs := s.logs ++ [(s.logsId, {
        typ := "obj.add_sub", time := s.clock,
        attrs := some [("sub", BVal.vInt sub), ("id", BVal.vInt id)] })] }) := by
  unfold Storage.obj_add_sub
  simp [create_log_eq]

lemma obj_add_ref_eq (s : Storage) (id rf : Nat) :
    s.obj_add_ref id rf = (Outcome.ok (), { s with
      logsId := s.logsId + 1, clock := s.clock + 1,
      objs := (findOneAndUpdate s.objs (fun e => e.1 == id)
        (fun d => { d with refs := addToSet d.refs rf })).2,
      logs := s.logs ++ [(s.logsId, {
        typ := "obj.add_ref", time := s.clock,
        attrs := some [("ref", BVal.vInt rf), ("id", BVal.vInt id)] })] }) := by
  unfold Storage.obj_add_ref
  simp [create_log_eq]

lemma obj_del_dep_eq (s : Storage) (id dep : Nat) :
    s.obj_del_dep id dep = (Outcome.ok (), { s with
      logsId := s.logsId + 1, clock := s.clock + 1,
      objs := (findOneAndUpdate s.objs (fun e => e.1 == id)
        (fun d => { d with deps := pull d.deps dep })).2,
      logs := s.logs ++ [(s.logsId, {
        typ := "obj.del_dep", time := s.clock,
        attrs := some [("dep", BVal.vInt dep), ("id", BVal.vInt id)] })] }) := by
  unfold Storage.obj_del_dep
  simp [create_log_eq]

lemma obj_del_sub_eq (s : Storage) (id sub : Nat) :
    s.obj_del_sub id sub = (Outcome.ok (), { s with
      logsId := s.logsId + 1, clock := s.clock + 1,
      objs := (findOneAndUpdate s.objs (fun e => e.1 == id)
        (fun d => { d with subs := pull d.subs sub })).2,
      logs := s.logs ++ [(s.logsId, {
        typ := "obj.del_sub", time := s.clock,
        attrs := some [("sub", BVal.vInt sub), ("id", BVal.vInt id)] })] }) := by
  unfold Storage.obj_del_sub
  simp [create_log_eq]

lemma obj_del_ref_eq (s : Storage) (id rf : Nat) :
    s.obj_del_ref id rf = (Outcome.ok (), { s with
      logsId := s.logsId + 1, clock := s.clock + 1,
      objs := (findOneAndUpdate s.objs (fun e => e.1 == id)
        (fun d => { d with refs := pull d.refs rf })).2,
      logs := s.logs ++ [(s.logsId, {
        typ := "obj.del_ref", time := s.clock,
        attrs := some [("ref", BVal.vInt rf), ("id", BVal.vInt id)] })] }) := by
  unfold Storage.obj_del_ref
  simp [create_log_eq]

/-- Counter invariant over arbitrary creation traces: Object ids form
the contiguous range from the current counter; Log ids are strictly
increasing and bounded by the counters; each `create_log` advances the
Log counter once, each `create_obj` advances the Object counter once
AND the Log counter once (for its `obj.create` audit Log). -/
lemma runOps_spec (ops : List Op) : ∀ s : Storage,
    (runOps s ops).2.2.objsId = s.objsId + countObj ops ∧
    (runOps s ops).2.2.logsId = s.logsId + countLog ops + countObj ops ∧
    (runOps s ops).2.1 = List.range' s.objsId (countObj ops) ∧
    (runOps s ops).1.Pairwise (· < ·) ∧
    (∀ x ∈ (runOps s ops).1, s.logsId ≤ x ∧ x < (runOps s ops).2.2.logsId) := by
  induction ops with
  | nil => intro s; simp [runOps, countLog, countObj, List.range']
  | cons op rest ih =>
    intro s
    cases op with
    | createLog typ attrs =>
      simp only [runOps, create_log_eq]
      obtain ⟨ih1, ih2, ih3, ih4, ih5⟩ := ih { s with
        logsId := s.logsId + 1, clock := s.clock + 1,
        logs := s.logs ++ [(s.logsId,
          if attrs.length > 0 then { typ := typ, time := s.clock, attrs := some attrs }
          else { typ := typ, time := s.clock, attrs := none })] }
      refine ⟨?_, ?_, ?_, ?_, ?_⟩
      · rw [ih1]; simp [countObj]
      · rw [ih2]; simp [countLog, countObj]; omega
      · rw [ih3]; simp [countObj]
      · rw [List.pairwise_cons]
        refine ⟨fun y hy => ?_, ih4⟩
        have := (ih5 y hy).1
        simpa using Nat.lt_of_succ_le (by simpa using this)
      · intro x hx
        rcases List.mem_cons.1 hx with h1 | h2
        · rw [h1]
          refine ⟨Nat.le_refl _, ?_⟩
          rw [ih2]; simp; omega
        · obtain ⟨hlo, hhi⟩ := ih5 x h2
          exact ⟨by simpa using Nat.le_of_succ_le (by simpa using hlo), hhi⟩
    | createObj name typ =>
      simp only [runOps, create_obj_eq]
      obtain ⟨ih1, ih2, ih3, ih4, ih5⟩ := ih { s with
        objsId := s.objsId + 1, logsId := s.logsId + 1, clock := s.clock + 1,
        objs := s.objs ++ [(s.objsId, {
          name := name, typ := typ, desc := none,
          deps := [], subs := [], refs := [], attrs := none })],
        logs := s.logs ++ [(s.logsId, {
          typ := "obj.create", time := s.clock,
          attrs := some [("id", BVal.vInt s.objsId)] })] }
      refine ⟨?_, ?_, ?_, ?_, ?_⟩
      · rw [ih1]; simp [countObj]; omega
      · rw [ih2]; simp [countLog, countObj]; omega
      · rw [ih3]
        simp only [countObj]
        rw [List.range'_succ]
      · exact ih4
      · intro x hx
        obtain ⟨hlo, hhi⟩ := ih5 x hx
        exact ⟨by simpa using Nat.le_of_succ_le (by simpa using hlo), hhi⟩

/-- C1 (counterexample): the claim asserts that a create_obj call never
advances the Log identifier sequence ("and vice versa"), but
`create_obj` emits an `obj.create` audit Log that consumes a Log id:
on a fresh store, `create_log` returns Log id 1, while after one
`create_obj` call the same `create_log` call returns Log id 2, and the
Log counter document has moved. -/
theorem c1_obj_creation_advances_log_sequence :
    (Storage.init.create_log "t" []).1 = Outcome.ok 1 ∧
    ((Storage.init.create_obj "a" "t").2.create_log "t" []).1 = Outcome.ok 2 ∧
    (Storage.init.create_obj "a" "t").2.logsId ≠ Storage.init.logsId := by
  decide

/-- C1 (amended): over every sequence of `create_log`/`create_obj`
calls from the initial store, the Object ids returned are exactly
`1, 2, …` (strictly increasing, never repeated, starting at 1, not
advanced by `create_log` calls — the count of `create_log` calls does
not appear in them), and the Log ids returned are strictly increasing,
never repeated and at least 1; the Log counter, however, advances once
per `create_log` call AND once per `create_obj` call, because each
`create_obj` consumes a Log id for its `obj.create` audit Log. -/
theorem c1_id_sequences (ops : List Op) :
    (runOps Storage.init ops).2.1 = List.range' 1 (countObj ops) ∧
    (runOps Storage.init ops).2.1.Pairwise (· < ·) ∧
    (runOps Storage.init ops).1.Pairwise (· < ·) ∧
    (∀ x ∈ (runOps Storage.init ops).1, 1 ≤ x) ∧
    (runOps Storage.init ops).2.2.objsId = 1 + countObj ops ∧
    (runOps Storage.init ops).2.2.logsId = 1 + countLog ops + countObj ops := by
  obtain ⟨h1, h2, h3, h4, h5⟩ := runOps_spec ops Storage.init
  refine ⟨h3, ?_, h4, fun x hx => (h5 x hx).1, h1, h2⟩
  rw [h3]
  exact List.pairwise_lt_range' 1 (countObj ops)

/-- C2 (code bug): `obj_set_desc` on an id that names no Object does
NOT return the typed error `InvalidObjID`; the second `.unwrap()` on
the absent pre-image panics (an unrecoverable fault), and no `Error`
value is ever produced for this input. -/
theorem c2_set_desc_missing_object_panics :
    Storage.init.obj_set_desc 1 "d" = (Outcome.panic "unwrap on None", Storage.init) ∧
    (Storage.init.obj_set_desc 1 "d").1 ≠ Outcome.err (Error.InvalidObjID 1) := by
  refine ⟨rfl, ?_⟩
  intro h
  have h1 : (Storage.init.obj_set_desc 1 "d").1 = Outcome.panic "unwrap on None" := rfl
  rw [h1] at h
  exact Outcome.noConfusion h

/-- C3 (code bug): on an Object with no `attrs` field, `obj_del_attr`
of a never-set key succeeds and emits no audit Log, and `obj_del_attr`
of an existing key emits exactly one `obj.del_attr` audit Log with the
old value — but on an Object whose `attrs` subdocument exists and
lacks the key (here `attrs = ⦃x: v⦄`, deleting `y`), the inner
`.unwrap()` on `get_str` PANICS instead of succeeding silently. -/
theorem c3_del_attr_audit_asymmetry_and_panic :
    (((Storage.init.create_obj "o" "t").2.obj_del_attr 1 "x").1 = Outcome.ok () ∧
     ((Storage.init.create_obj "o" "t").2.obj_del_attr 1 "x").2.logs.length =
       (Storage.init.create_obj "o" "t").2.logs.length) ∧
    ((((Storage.init.create_obj "o" "t").2.obj_set_attr 1 "x" "v").2.obj_del_attr 1 "x").1 =
       Outcome.ok () ∧
     (((Storage.init.create_obj "o" "t").2.obj_set_attr 1 "x" "v").2.obj_del_attr 1 "x").2.logs =
       ((Storage.init.create_obj "o" "t").2.obj_set_attr 1 "x" "v").2.logs ++
         [(3, { typ := "obj.del_attr", time := 2,
                attrs := some [("id", BVal.vInt 1), ("key", BVal.vStr "x"),
                               ("old", BVal.vStr "v")] })]) ∧
    ((((Storage.init.create_obj "o" "t").2.obj_set_attr 1 "x" "v").2.obj_del_attr 1 "y").1 =
       Outcome.panic "unwrap on NotPresent") := by
  decide

/-- C4 (confirmed): a key containing the separator character is
rejected up front by `log_set_attr`, `obj_set_attr` and `obj_del_attr`
with the typed error `InvalidKey`, and the returned state is the input
state unchanged — so no audit Log is emitted and no store write is
performed for the rejected call. -/
theorem c4_dotted_key_rejected_no_audit (s : Storage) (id : Nat) (key val : String)
    (hk : key.data.contains '.' = true) :
    s.log_set_attr id key val = (Outcome.err (Error.InvalidKey key), s) ∧
    s.obj_set_attr id key val = (Outcome.err (Error.InvalidKey key), s) ∧
    s.obj_del_attr id key = (Outcome.err (Error.InvalidKey key), s) := by
  have hk2 : '.' ∈ key.data := by simpa using hk
  unfold Storage.log_set_attr Storage.obj_set_attr Storage.obj_del_attr
  simp [hk2]

/-- C4 witness: the dotted key `a.b` is rejected on the initial store
by all three attribute operations. -/
theorem c4_dotted_key_rejected_no_audit_witness :
    Storage.init.log_set_attr 1 "a.b" "v" = (Outcome.err (Error.InvalidKey "a.b"), Storage.init) ∧
    Storage.init.obj_set_attr 1 "a.b" "v" = (Outcome.err (Error.InvalidKey "a.b"), Storage.init) ∧
    Storage.init.obj_del_attr 1 "a.b" = (Outcome.err (Error.InvalidKey "a.b"), Storage.init) :=
  c4_dotted_key_rejected_no_audit Storage.init 1 "a.b" "v" (by decide)

/-- C5 (confirmed): on an existing Log (id below the counter, as for
every issued id) whose attribute key is not yet set, two successive
`log_set_attr` calls with the same non-dotted key both return `Ok`;
afterwards the Log still holds the value of the FIRST call
(first-write-wins: the conditional `$exists: false` write of the second
call matches nothing); and each of the two calls appended exactly one
audit Log of type `log.set_attr` with attributes
`id` and `attr = "attrs.<key>"` — the no-op second call included. -/
theorem c5_log_attr_first_write_wins_always_audited
    (s : Storage) (L : Nat) (k v1 v2 : String) (d : LogDoc)
    (hk : k.data.contains '.' = false)
    (hfind : List.lookup L s.logs = some d)
    (habs : (d.attrs.getD []).get k = none)
    (hL : L < s.logsId) :
    (s.log_set_attr L k v1).1 = Outcome.ok () ∧
    ((s.log_set_attr L k v1).2.log_set_attr L k v2).1 = Outcome.ok () ∧
    (∃ lg, ((s.log_set_attr L k v1).2.log_set_attr L k v2).2.get_log L = Outcome.ok lg ∧
       List.lookup k lg.attrs = some v1) ∧
    ((s.log_set_attr L k v1).2.log_set_attr L k v2).2.logs.length = s.logs.length + 2 ∧
    (∃ X, ((s.log_set_attr L k v1).2.log_set_attr L k v2).2.logs =
       X ++ [(s.logsId, {
         typ := "log.set_attr", time := s.clock,
         attrs := some [("id", BVal.vInt L), ("attr", BVal.vStr ("attrs." ++ k))] }),
        (s.logsId + 1, {
         typ := "log.set_attr", time := s.clock + 1,
         attrs := some [("id", BVal.vInt L), ("attr", BVal.vStr ("attrs." ++ k))] })] ∧
       X.length = s.logs.length) := by
  have hk2 : ¬ '.' ∈ k.data := by simpa using hk
  have hq : ∀ e : Nat × LogDoc,
      (e.1 == L && ((e.2.attrs.getD []).get k).isNone) = true → e.1 = L := by
    intro e he
    simp only [Bool.and_eq_true, beq_iff_eq] at he
    exact he.1
  have hp1 : ((fun e : Nat × LogDoc => e.1 == L && ((e.2.attrs.getD []).get k).isNone)
      (L, d)) = true := by
    simp [habs]
  have h1 : s.log_set_attr L k v1 = (Outcome.ok (), { s with
      logsId := s.logsId + 1, clock := s.clock + 1,
      logs := (findOneAndUpdate s.logs
          (fun e => e.1 == L && ((e.2.attrs.getD []).get k).isNone)
          (fun d0 => { d0 with attrs := some ((d0.attrs.getD []).set k (BVal.vStr v1)) })).2
        ++ [(s.logsId, {
          typ := "log.set_attr", time := s.clock,
          attrs := some [("id", BVal.vInt L), ("attr", BVal.vStr ("attrs." ++ k))] })] }) := by
    unfold Storage.log_set_attr
    simp [hk2, create_log_eq]
  have hlk1 := (fOAU_lookup_self s.logs L d
    (fun e => e.1 == L && ((e.2.attrs.getD []).get k).isNone)
    (fun d0 => { d0 with attrs := some ((d0.attrs.getD []).set k (BVal.vStr v1)) })
    hfind hp1 hq).2
  have hp2 : ((fun e : Nat × LogDoc => e.1 == L && ((e.2.attrs.getD []).get k).isNone)
      (L, { d with attrs := some ((d.attrs.getD []).set k (BVal.vStr v1)) })) = false := by
    simp [BDoc.get_set_self]
  have hpA1 : ((fun e : Nat × LogDoc => e.1 == L && ((e.2.attrs.getD []).get k).isNone)
      (s.logsId, {
        typ := "log.set_attr", time := s.clock,
        attrs := some [("id", BVal.vInt L), ("attr", BVal.vStr ("attrs." ++ k))] })) = false := by
    have hne : (s.logsId == L) = false := by
      simp only [beq_eq_false_iff_ne]
      exact fun he => absurd he.symm (Nat.ne_of_lt hL)
    simp [hne]
  have h2 : ∀ s1 : Storage, s1.log_set_attr L k v2 = (Outcome.ok (), { s1 with
      logsId := s1.logsId + 1, clock := s1.clock + 1,
      logs := (findOneAndUpdate s1.logs
          (fun e => e.1 == L && ((e.2.attrs.getD []).get k).isNone)
          (fun d0 => { d0 with attrs := some ((d0.attrs.getD []).set k (BVal.vStr v2)) })).2
        ++ [(s1.logsId, {
          typ := "log.set_attr", time := s1.clock,
          attrs := some [("id", BVal.vInt L), ("attr", BVal.vStr ("attrs." ++ k))] })] }) := by
    intro s1
    unfold Storage.log_set_attr
    simp [hk2, create_log_eq]
  have hlk2 := fOAU_lookup_nomatch_first
    (findOneAndUpdate s.logs
      (fun e => e.1 == L && ((e.2.attrs.getD []).get k).isNone)
      (fun d0 => { d0 with attrs := some ((d0.attrs.getD []).set k (BVal.vStr v1)) })).2
    L ({ d with attrs := some ((d.attrs.getD []).set k (BVal.vStr v1)) })
    (fun e => e.1 == L && ((e.2.attrs.getD []).get k).isNone)
    (fun d0 => { d0 with attrs := some ((d0.attrs.getD []).set k (BVal.vStr v2)) })
    hlk1 hp2
  refine ⟨?_, ?_, ?_, ?_, ?_⟩
  · rw [h1]
  · rw [h1, h2]
  · rw [h1, h2]
    refine ⟨{
      typ := d.typ, time := d.time,
      attrs := ((d.attrs.getD []).set k (BVal.vStr v1)).map
        (fun e => (e.1, bvalToString e.2)) }, ?_, ?_⟩
    · unfold Storage.get_log
      rw [fOAU_append_last_nomatch _ _ _ _ _ hpA1]
      rw [lookup_append_some _ _ _ _ (lookup_append_some _ _ _ _ hlk2)]
      rfl
    · exact lookup_map_conv_set (d.attrs.getD []) k v1
  · rw [h1, h2]
    simp [List.length_append, fOAU_length]
  · rw [h1, h2]
    refine ⟨(findOneAndUpdate
      (findOneAndUpdate s.logs
        (fun e => e.1 == L && ((e.2.attrs.getD []).get k).isNone)
        (fun d0 => { d0 with attrs := some ((d0.attrs.getD []).set k (BVal.vStr v1)) })).2
      (fun e => e.1 == L && ((e.2.attrs.getD []).get k).isNone)
      (fun d0 => { d0 with attrs := some ((d0.attrs.getD []).set k (BVal.vStr v2)) })).2, ?_, ?_⟩
    · rw [fOAU_append_last_nomatch _ _ _ _ _ hpA1]
      simp [List.append_assoc]
    · simp [fOAU_length]

/-- C5 witness: on a store holding one Log (id 1, no attributes),
setting key `k` to `a` and then to `b` leaves the Log reading back
with `k = a`. -/
theorem c5_log_attr_first_write_wins_always_audited_witness :
    ∃ lg, ((({ logsId := 2, objsId := 1,
               logs := [(1, { typ := "base", time := 0, attrs := none })],
               objs := [], clock := 1 } : Storage).log_set_attr 1 "k" "a").2.log_set_attr
             1 "k" "b").2.get_log 1 = Outcome.ok lg ∧
      List.lookup "k" lg.attrs = some "a" :=
  (c5_log_attr_first_write_wins_always_audited
    { logsId := 2, objsId := 1,
      logs := [(1, { typ := "base", time := 0, attrs := none })],
      objs := [], clock := 1 }
    1 "k" "a" "b" { typ := "base", time := 0, attrs := none }
    (by decide) (by decide) (by decide) (by decide)).2.2.1

/-- C6 (code bug): on a fresh Object, two `obj_set_attr` calls with the
same key overwrite (the second value wins) and the second audit Log
records both `old` and `new` while the first records only `new` — but
setting a NEW key on an Object whose `attrs` subdocument already holds
a different key PANICS on the inner `.unwrap()` instead of emitting the
`new`-only audit Log, so the first-time-key clause fails on such
Objects. -/
theorem c6_obj_set_attr_overwrite_audit_and_panic :
    ((Storage.init.create_obj "o" "t").2.obj_set_attr 1 "k" "v1").1 = Outcome.ok () ∧
    ((Storage.init.create_obj "o" "t").2.obj_set_attr 1 "k" "v1").2.logs =
      (Storage.init.create_obj "o" "t").2.logs ++ [(2, {
        typ := "obj.set_attr", time := 1,
        attrs := some [("key", BVal.vStr "k"), ("id", BVal.vInt 1),
                       ("new", BVal.vStr "v1")] })] ∧
    (((Storage.init.create_obj "o" "t").2.obj_set_attr 1 "k" "v1").2.obj_set_attr
        1 "k" "v2").1 = Outcome.ok () ∧
    ((((Storage.init.create_obj "o" "t").2.obj_set_attr 1 "k" "v1").2.obj_set_attr
        1 "k" "v2").2.get_obj 1) = Outcome.ok {
      name := "o", typ := "t", desc := none,
      deps := [], subs := [], refs := [], attrs := [("k", "v2")] } ∧
    (((Storage.init.create_obj "o" "t").2.obj_set_attr 1 "k" "v1").2.obj_set_attr
        1 "k" "v2").2.logs =
      ((Storage.init.create_obj "o" "t").2.obj_set_attr 1 "k" "v1").2.logs ++ [(3, {
        typ := "obj.set_attr", time := 2,
        attrs := some [("key", BVal.vStr "k"), ("id", BVal.vInt 1),
                       ("old", BVal.vStr "v1"), ("new", BVal.vStr "v2")] })] ∧
    (((Storage.init.create_obj "o" "t").2.obj_set_attr 1 "k" "v1").2.obj_set_attr
        1 "b" "w").1 = Outcome.panic "unwrap on NotPresent" := by
  decide

/-- C7 (confirmed): on an existing, deserializable Object `A` and any
target `B`, for each of the three relations (deps, subs, refs):
adding shows `B` in the relation via `get_obj`; adding then deleting no
longer shows `B`; deleting an absent member still succeeds, leaves the
set unchanged and still appends exactly one `obj.del_*` audit Log;
adding an already-present member leaves the set unchanged (set
semantics, no duplicates) and is likewise always audited with exactly
one `obj.add_*` Log recording the id and the target. -/
theorem c7_relation_sets_membership_and_audit
    (s : Storage) (A B : Nat) (d : ObjDoc) (strs : List (String × String))
    (hfind : List.lookup A s.objs = some d)
    (hdeser : docAttrsToStrs (d.attrs.getD []) = some strs) :
    (∃ o, ((s.obj_add_dep A B).2.get_obj A) = Outcome.ok o ∧ B ∈ o.deps) ∧
    (∃ o, (((s.obj_add_dep A B).2.obj_del_dep A B).2.get_obj A) = Outcome.ok o ∧ B ∉ o.deps) ∧
    ((s.obj_del_dep A B).1 = Outcome.ok ()) ∧
    ((s.obj_del_dep A B).2.logs = s.logs ++ [(s.logsId, {
       typ := "obj.del_dep", time := s.clock,
       attrs := some [("dep", BVal.vInt B), ("id", BVal.vInt A)] })]) ∧
    (B ∉ d.deps → ∃ o, ((s.obj_del_dep A B).2.get_obj A) = Outcome.ok o ∧ o.deps = d.deps) ∧
    (B ∈ d.deps → ∃ o, ((s.obj_add_dep A B).2.get_obj A) = Outcome.ok o ∧ o.deps = d.deps) ∧
    ((s.obj_add_dep A B).2.logs = s.logs ++ [(s.logsId, {
       typ := "obj.add_dep", time := s.clock,
       attrs := some [("id", BVal.vInt A), ("dep", BVal.vInt B)] })]) ∧
    (∃ o, ((s.obj_add_sub A B).2.get_obj A) = Outcome.ok o ∧ B ∈ o.subs) ∧
    (∃ o, (((s.obj_add_sub A B).2.obj_del_sub A B).2.get_obj A) = Outcome.ok o ∧ B ∉ o.subs) ∧
    ((s.obj_del_sub A B).1 = Outcome.ok ()) ∧
    ((s.obj_del_sub A B).2.logs = s.logs ++ [(s.logsId, {
       typ := "obj.del_sub", time := s.clock,
       attrs := some [("sub", BVal.vInt B), ("id", BVal.vInt A)] })]) ∧
    (B ∉ d.subs → ∃ o, ((s.obj_del_sub A B).2.get_obj A) = Outcome.ok o ∧ o.subs = d.subs) ∧
    (B ∈ d.subs → ∃ o, ((s.obj_add_sub A B).2.get_obj A) = Outcome.ok o ∧ o.subs = d.subs) ∧
    ((s.obj_add_sub A B).2.logs = s.logs ++ [(s.logsId, {
       typ := "obj.add_sub", time := s.clock,
       attrs := some [("sub", BVal.vInt B), ("id", BVal.vInt A)] })]) ∧
    (∃ o, ((s.obj_add_ref A B).2.get_obj A) = Outcome.ok o ∧ B ∈ o.refs) ∧
    (∃ o, (((s.obj_add_ref A B).2.obj_del_ref A B).2.get_obj A) = Outcome.ok o ∧ B ∉ o.refs) ∧
    ((s.obj_del_ref A B).1 = Outcome.ok ()) ∧
    ((s.obj_del_ref A B).2.logs = s.logs ++ [(s.logsId, {
       typ := "obj.del_ref", time := s.clock,
       attrs := some [("ref", BVal.vInt B), ("id", BVal.vInt A)] })]) ∧
    (B ∉ d.refs → ∃ o, ((s.obj_del_ref A B).2.get_obj A) = Outcome.ok o ∧ o.refs = d.refs) ∧
    (B ∈ d.refs → ∃ o, ((s.obj_add_ref A B).2.get_obj A) = Outcome.ok o ∧ o.refs = d.refs) ∧
    ((s.obj_add_ref A B).2.logs = s.logs ++ [(s.logsId, {
       typ := "obj.add_ref", time := s.clock,
       attrs := some [("ref", BVal.vInt B), ("id", BVal.vInt A)] })]) := by
  have hq : ∀ e : Nat × ObjDoc, (e.1 == A) = true → e.1 = A := fun e he => by simpa using he
  have hadddep := (fOAU_lookup_self s.objs A d (fun e => e.1 == A)
    (fun d0 => { d0 with deps := addToSet d0.deps B }) hfind (by simp) hq).2
  have hdeldep := (fOAU_lookup_self s.objs A d (fun e => e.1 == A)
    (fun d0 => { d0 with deps := pull d0.deps B }) hfind (by simp) hq).2
  have haddeldep := (fOAU_lookup_self
    (findOneAndUpdate s.objs (fun e => e.1 == A)
      (fun d0 => { d0 with deps := addToSet d0.deps B })).2
    A ({ d with deps := addToSet d.deps B })
    (fun e => e.1 == A) (fun d0 => { d0 with deps := pull d0.deps B }) hadddep (by simp) hq).2
  have haddsub := (fOAU_lookup_self s.objs A d (fun e => e.1 == A)
    (fun d0 => { d0 with subs := addToSet d0.subs B }) hfind (by simp) hq).2
  have hdelsub := (fOAU_lookup_self s.objs A d (fun e => e.1 == A)
    (fun d0 => { d0 with subs := pull d0.subs B }) hfind (by simp) hq).2
  have haddelsub := (fOAU_lookup_self
    (findOneAndUpdate s.objs (fun e => e.1 == A)
      (fun d0 => { d0 with subs := addToSet d0.subs B })).2
    A ({ d with subs := addToSet d.subs B })
    (fun e => e.1 == A) (fun d0 => { d0 with subs := pull d0.subs B }) haddsub (by simp) hq).2
  have haddref := (fOAU_lookup_self s.objs A d (fun e => e.1 == A)
    (fun d0 => { d0 with refs := addToSet d0.refs B }) hfind (by simp) hq).2
  have hdelref := (fOAU_lookup_self s.objs A d (fun e => e.1 == A)
    (fun d0 => { d0 with refs := pull d0.refs B }) hfind (by simp) hq).2
  have haddelref := (fOAU_lookup_self
    (findOneAndUpdate s.objs (fun e => e.1 == A)
      (fun d0 => { d0 with refs := addToSet d0.refs B })).2
    A ({ d with refs := addToSet d.refs B })
    (fun e => e.1 == A) (fun d0 => { d0 with refs := pull d0.refs B }) haddref (by simp) hq).2
  refine ⟨?_, ?_, ?_, ?_, ?_, ?_, ?_, ?_, ?_, ?_, ?_, ?_, ?_, ?_, ?_, ?_, ?_, ?_, ?_, ?_, ?_⟩
  · refine ⟨{ name := d.name, typ := d.typ, desc := d.desc, deps := addToSet d.deps B, subs := d.subs, refs := d.refs,
              attrs := strs }, ?_, ?_⟩
    · rw [obj_add_dep_eq]
      exact get_obj_of_lookup _ A { d with deps := addToSet d.deps B } strs hadddep hdeser
    · exact mem_addToSet_self d.deps B
  · refine ⟨{ name := d.name, typ := d.typ, desc := d.desc, deps := pull (addToSet d.deps B) B, subs := d.subs, refs := d.refs,
              attrs := strs }, ?_, ?_⟩
    · rw [obj_add_dep_eq, obj_del_dep_eq]
      exact get_obj_of_lookup _ A { d with deps := pull (addToSet d.deps B) B } strs haddeldep hdeser
    · exact not_mem_pull_self (addToSet d.deps B) B
  · rw [obj_del_dep_eq]
  · rw [obj_del_dep_eq]
  · intro hB
    refine ⟨{ name := d.name, typ := d.typ, desc := d.desc, deps := pull d.deps B, subs := d.subs, refs := d.refs,
              attrs := strs }, ?_, ?_⟩
    · rw [obj_del_dep_eq]
      exact get_obj_of_lookup _ A { d with deps := pull d.deps B } strs hdeldep hdeser
    · exact pull_not_mem_noop d.deps B hB
  · intro hB
    refine ⟨{ name := d.name, typ := d.typ, desc := d.desc, deps := addToSet d.deps B, subs := d.subs, refs := d.refs,
              attrs := strs }, ?_, ?_⟩
    · rw [obj_add_dep_eq]
      exact get_obj_of_lookup _ A { d with deps := addToSet d.deps B } strs hadddep hdeser
    · exact addToSet_mem_noop d.deps B hB
  · rw [obj_add_dep_eq]
  · refine ⟨{ name := d.name, typ := d.typ, desc := d.desc, deps := d.deps, subs := addToSet d.subs B, refs := d.refs,
              attrs := strs }, ?_, ?_⟩
    · rw [obj_add_sub_eq]
      exact get_obj_of_lookup _ A { d with subs := addToSet d.subs B } strs haddsub hdeser
    · exact mem_addToSet_self d.subs B
  · refine ⟨{ name := d.name, typ := d.typ, desc := d.desc, deps := d.deps, subs := pull (addToSet d.subs B) B, refs := d.refs,
              attrs := strs }, ?_, ?_⟩
    · rw [obj_add_sub_eq, obj_del_sub_eq]
      exact get_obj_of_lookup _ A { d with subs := pull (addToSet d.subs B) B } strs haddelsub hdeser
    · exact not_mem_pull_self (addToSet d.subs B) B
  · rw [obj_del_sub_eq]
  · rw [obj_del_sub_eq]
  · intro hB
    refine ⟨{ name := d.name, typ := d.typ, desc := d.desc, deps := d.deps, subs := pull d.subs B, refs := d.refs,
              attrs := strs }, ?_, ?_⟩
    · rw [obj_del_sub_eq]
      exact get_obj_of_lookup _ A { d with subs := pull d.subs B } strs hdelsub hdeser
    · exact pull_not_mem_noop d.subs B hB
  · intro hB
    refine ⟨{ name := d.name, typ := d.typ, desc := d.desc, deps := d.deps, subs := addToSet d.subs B, refs := d.refs,
              attrs := strs }, ?_, ?_⟩
    · rw [obj_add_sub_eq]
      exact get_obj_of_lookup _ A { d with subs := addToSet d.subs B } strs haddsub hdeser
    · exact addToSet_mem_noop d.subs B hB
  · rw [obj_add_sub_eq]
  · refine ⟨{ name := d.name, typ := d.typ, desc := d.desc, deps := d.deps, subs := d.subs, refs := addToSet d.refs B,
              attrs := strs }, ?_, ?_⟩
    · rw [obj_add_ref_eq]
      exact get_obj_of_lookup _ A { d with refs := addToSet d.refs B } strs haddref hdeser
    · exact mem_addToSet_self d.refs B
  · refine ⟨{ name := d.name, typ := d.typ, desc := d.desc, deps := d.deps, subs := d.subs, refs := pull (addToSet d.refs B) B,
              attrs := strs }, ?_, ?_⟩
    · rw [obj_add_ref_eq, obj_del_ref_eq]
      exact get_obj_of_lookup _ A { d with refs := pull (addToSet d.refs B) B } strs haddelref hdeser
    · exact not_mem_pull_self (addToSet d.refs B) B
  · rw [obj_del_ref_eq]
  · rw [obj_del_ref_eq]
  · intro hB
    refine ⟨{ name := d.name, typ := d.typ, desc := d.desc, deps := d.deps, subs := d.subs, refs := pull d.refs B,
              attrs := strs }, ?_, ?_⟩
    · rw [obj_del_ref_eq]
      exact get_obj_of_lookup _ A { d with refs := pull d.refs B } strs hdelref hdeser
    · exact pull_not_mem_noop d.refs B hB
  · intro hB
    refine ⟨{ name := d.name, typ := d.typ, desc := d.desc, deps := d.deps, subs := d.subs, refs := addToSet d.refs B,
              attrs := strs }, ?_, ?_⟩
    · rw [obj_add_ref_eq]
      exact get_obj_of_lookup _ A { d with refs := addToSet d.refs B } strs haddref hdeser
    · exact addToSet_mem_noop d.refs B hB
  · rw [obj_add_ref_eq]

/-- C7 witness: on a store holding Object 1 (freshly created),
`obj_add_dep 1 2` followed by `get_obj 1` shows `2` in `deps`. -/
theorem c7_relation_sets_membership_and_audit_witness :
    ∃ o, ((({ logsId := 2, objsId := 2,
              logs := [(1, { typ := "obj.create", time := 0,
                             attrs := some [("id", BVal.vInt 1)] })],
              objs := [(1, { name := "o", typ := "t", desc := none,
                             deps := [], subs := [], refs := [], attrs := none })],
              clock := 1 } : Storage).obj_add_dep 1 2).2.get_obj 1) = Outcome.ok o ∧
      2 ∈ o.deps :=
  (c7_relation_sets_membership_and_audit
    { logsId := 2, objsId := 2,
      logs := [(1, { typ := "obj.create", time := 0,
                     attrs := some [("id", BVal.vInt 1)] })],
      objs := [(1, { name := "o", typ := "t", desc := none,
                     deps := [], subs := [], refs := [], attrs := none })],
      clock := 1 }
    1 2 { name := "o", typ := "t", desc := none,
          deps := [], subs := [], refs := [], attrs := none }
    [] rfl rfl).1

/-- C8 (confirmed): when an id names no Log, `get_log` fails with
`InvalidLogID id`, and when an id names no Object, `get_obj` fails with
`InvalidObjID id`; both are pure lookups (they are functions of the
state that return no updated state), so no store document and no
counter is modified and no audit Log is emitted. -/
theorem c8_missing_id_lookup_typed_error (s : Storage) (idl ido : Nat)
    (hl : List.lookup idl s.logs = none) (ho : List.lookup ido s.objs = none) :
    s.get_log idl = Outcome.err (Error.InvalidLogID idl) ∧
    s.get_obj ido = Outcome.err (Error.InvalidObjID ido) := by
  constructor
  · unfold Storage.get_log; rw [hl]
  · unfold Storage.get_obj; rw [ho]

/-- C8 witness: id 7 on the initial store. -/
theorem c8_missing_id_lookup_typed_error_witness :
    Storage.init.get_log 7 = Outcome.err (Error.InvalidLogID 7) ∧
    Storage.init.get_obj 7 = Outcome.err (Error.InvalidObjID 7) :=
  c8_missing_id_lookup_typed_error Storage.init 7 7 rfl rfl

/-- C9 (confirmed): every `create_log` call returns the freshly issued
id and appends EXACTLY ONE Log document, whose `attrs` field is omitted
(`none`) precisely when the given attribute map is empty and present
otherwise; the Object collection and the Object counter are untouched,
and no second (audit) Log is produced for the creation itself — Log
creation is the audit base case. -/
theorem c9_create_log_single_insert_attrs_omitted (s : Storage) (typ : String) (attrs : BDoc) :
    (s.create_log typ attrs).1 = Outcome.ok s.logsId ∧
    (s.create_log typ attrs).2.logs =
      s.logs ++ [(s.logsId,
        { typ := typ, time := s.clock,
          attrs := if attrs.length > 0 then some attrs else none })] ∧
    (s.create_log typ attrs).2.objs = s.objs ∧
    (s.create_log typ attrs).2.objsId = s.objsId := by
  rw [create_log_eq]
  refine ⟨rfl, ?_, rfl, rfl⟩
  by_cases h : attrs.length > 0 <;> simp [h]

/-- C10 (confirmed): when an id names no Object, each of the six
relation operations nevertheless returns `Ok(())` (the discarded
pre-image hides the miss, so no `InvalidObjID` is reported), modifies
no Object document, and still appends exactly one audit Log of the
corresponding type. -/
theorem c10_relation_ops_missing_object_succeed_and_audit (s : Storage) (id target : Nat)
    (h : List.lookup id s.objs = none) :
    s.obj_add_dep id target = (Outcome.ok (), { s with
      logsId := s.logsId + 1, clock := s.clock + 1,
      logs := s.logs ++ [(s.logsId, {
        typ := "obj.add_dep", time := s.clock,
        attrs := some [("id", BVal.vInt id), ("dep", BVal.vInt target)] })] }) ∧
    s.obj_add_sub id target = (Outcome.ok (), { s with
      logsId := s.logsId + 1, clock := s.clock + 1,
      logs := s.logs ++ [(s.logsId, {
        typ := "obj.add_sub", time := s.clock,
        attrs := some [("sub", BVal.vInt target), ("id", BVal.vInt id)] })] }) ∧
    s.obj_add_ref id target = (Outcome.ok (), { s with
      logsId := s.logsId + 1, clock := s.clock + 1,
      logs := s.logs ++ [(s.logsId, {
        typ := "obj.add_ref", time := s.clock,
        attrs := some [("ref", BVal.vInt target), ("id", BVal.vInt id)] })] }) ∧
    s.obj_del_dep id target = (Outcome.ok (), { s with
      logsId := s.logsId + 1, clock := s.clock + 1,
      logs := s.logs ++ [(s.logsId, {
        typ := "obj.del_dep", time := s.clock,
        attrs := some [("dep", BVal.vInt target), ("id", BVal.vInt id)] })] }) ∧
    s.obj_del_sub id target = (Outcome.ok (), { s with
      logsId := s.logsId + 1, clock := s.clock + 1,
      logs := s.logs ++ [(s.logsId, {
        typ := "obj.del_sub", time := s.clock,
        attrs := some [("sub", BVal.vInt target), ("id", BVal.vInt id)] })] }) ∧
    s.obj_del_ref id target = (Outcome.ok (), { s with
      logsId := s.logsId + 1, clock := s.clock + 1,
      logs := s.logs ++ [(s.logsId, {
        typ := "obj.del_ref", time := s.clock,
        attrs := some [("ref", BVal.vInt target), ("id", BVal.vInt id)] })] }) := by
  refine ⟨?_, ?_, ?_, ?_, ?_, ?_⟩
  · unfold Storage.obj_add_dep
    rw [fOAU_key_not_found _ _ _ h]
    simp [create_log_eq]
  · unfold Storage.obj_add_sub
    rw [fOAU_key_not_found _ _ _ h]
    simp [create_log_eq]
  · unfold Storage.obj_add_ref
    rw [fOAU_key_not_found _ _ _ h]
    simp [create_log_eq]
  · unfold Storage.obj_del_dep
    rw [fOAU_key_not_found _ _ _ h]
    simp [create_log_eq]
  · unfold Storage.obj_del_sub
    rw [fOAU_key_not_found _ _ _ h]
    simp [create_log_eq]
  · unfold Storage.obj_del_ref
    rw [fOAU_key_not_found _ _ _ h]
    simp [create_log_eq]

/-- C10 witness: `obj_add_dep 1 2` on the empty initial store succeeds
and appends the audit Log, touching no Object document. -/
theorem c10_relation_ops_missing_object_succeed_and_audit_witness :
    Storage.init.obj_add_dep 1 2 = (Outcome.ok (), {
      logsId := 2, objsId := 1,
      logs := [(1, { typ := "obj.add_dep", time := 0,
                     attrs := some [("id", BVal.vInt 1), ("dep", BVal.vInt 2)] })],
      objs := [], clock := 1 }) :=
  (c10_relation_ops_missing_object_succeed_and_audit Storage.init 1 2 rfl).1

/-- C1 witness: a concrete interleaving — one `create_obj` then one
`create_log` — returns Object ids `[1]`. -/
theorem c1_id_sequences_witness :
    (runOps Storage.init [Op.createObj "a" "t", Op.createLog "x" []]).2.1 =
      List.range' 1 (countObj [Op.createObj "a" "t", Op.createLog "x" []]) :=
  (c1_id_sequences [Op.createObj "a" "t", Op.createLog "x" []]).1

/-- C9 witness: creating a Log on the initial store returns id 1. -/
theorem c9_create_log_single_insert_attrs_omitted_witness :
    (Storage.init.create_log "t" []).1 = Outcome.ok Storage.init.logsId :=
  (c9_create_log_single_insert_attrs_omitted Storage.init "t" []).1
